import Mathlib

/- Shallow embedding of datahub_extractor.py (USCIS data hub scraper):
   the metadata store (self.metadata / self.checksums), its load/save routines,
   the download orchestrator (_is_duplicate, _download_file, scrape_visa_type),
   the consistency checker (cleanup_inconsistencies), and the retry scheduler
   (scheduled_job_with_retry, send_failure_notification).

   Python dicts keyed by strings are embedded as association lists
   (List (String × α)) with first-match lookup; dict keys are unique in any
   state the program builds, which theorems take as a Nodup hypothesis where
   needed.  Filesystem and network effects are passed in explicitly: a
   download's outcome, a file's on-disk status, a write's success or failure
   are parameters of the embedded functions. -/

/-- Lookup in an association list, modelling Python dict indexing d[k] and
the test k in d (first binding wins). -/
def lookupKey {α : Type} (k : String) : List (String × α) → Option α
  | [] => none
  | p :: rest => if p.1 = k then some p.2 else lookupKey k rest

/-- Python dict assignment d[k] = v: replace the binding of k in place if k is
present, otherwise append a new binding. -/
def updateKey {α : Type} (k : String) (v : α) : List (String × α) → List (String × α)
  | [] => [(k, v)]
  | p :: rest => if p.1 = k then (k, v) :: rest else p :: updateKey k v rest

/-- Python del d[k]: remove the binding of k. -/
def eraseKey {α : Type} (k : String) : List (String × α) → List (String × α)
  | [] => []
  | p :: rest => if p.1 = k then eraseKey k rest else p :: eraseKey k rest

/-- One entry of self.metadata, as written by _download_file (lines 243-248):
a dict with keys filename, download_date, checksum, size_bytes.  The
download_date (datetime.now().isoformat()) is an opaque string parameter. -/
structure DownloadRecord where
  filename : String
  download_date : String
  checksum : String
  size_bytes : Nat
deriving DecidableEq

/-- The byUrl map self.metadata: source URL to download record. -/
abbrev MetaMap := List (String × DownloadRecord)

/-- The byChecksum map self.checksums: content checksum to source URL. -/
abbrev ChecksumMap := List (String × String)

/-- Contents of a persisted JSON file as the loader sees it: either it parses
to a value or json.load raises (the file is corrupt). -/
inductive FileContent (α : Type) where
  | parsed (value : α)
  | corrupt
deriving DecidableEq

/-- USCISDataScraper._load_metadata (lines 85-94).  The file argument is none
when metadata_file does not exist.  Exceptions are modelled in Except; the
source wraps json.load in try/except and returns an empty dict on any parse
error, so every branch is Except.ok and no error ever propagates. -/
def load_metadata (file : Option (FileContent MetaMap)) : Except String MetaMap :=
  match file with
  | none => Except.ok []
  | some (FileContent.parsed v) => Except.ok v
  | some FileContent.corrupt => Except.ok []

/-- USCISDataScraper._load_checksums (lines 96-105), same shape as
_load_metadata. -/
def load_checksums (file : Option (FileContent ChecksumMap)) : Except String ChecksumMap :=
  match file with
  | none => Except.ok []
  | some (FileContent.parsed v) => Except.ok v
  | some FileContent.corrupt => Except.ok []

/-- Whether the write-and-rename of a save succeeds or raises an I/O error. -/
inductive WriteOutcome where
  | ok
  | ioError
deriving DecidableEq

/-- Result of a save: the persisted file's content afterwards (none when the
file never existed), whether an exception escapes to the caller, and whether
the temporary .tmp file is left behind. -/
structure SaveResult (α : Type) where
  disk : Option α
  raised : Bool
  temp_left : Bool
deriving DecidableEq

/-- USCISDataScraper._save_metadata (lines 107-118): write self.metadata to a
temporary file, rename it over metadata.json; on any exception, log it,
delete the temporary file, and return normally (the except branch neither
re-raises nor reports failure to the caller). -/
def save_metadata (st : MetaMap) (disk : Option MetaMap) (w : WriteOutcome) :
    SaveResult MetaMap :=
  match w with
  | WriteOutcome.ok => { disk := some st, raised := false, temp_left := false }
  | WriteOutcome.ioError => { disk := disk, raised := false, temp_left := false }

/-- USCISDataScraper._save_checksums (lines 120-131), same shape as
_save_metadata. -/
def save_checksums (st : ChecksumMap) (disk : Option ChecksumMap) (w : WriteOutcome) :
    SaveResult ChecksumMap :=
  match w with
  | WriteOutcome.ok => { disk := some st, raised := false, temp_left := false }
  | WriteOutcome.ioError => { disk := disk, raised := false, temp_left := false }

/-- One step of persisting the whole store: _save_metadata writes
metadata.json.tmp then renames it onto metadata.json; _save_checksums does the
same for checksums.json.  Writing a temporary file does not change either main
file; each rename atomically installs one complete main file. -/
inductive PersistStep where
  | write_temp_metadata
  | rename_metadata
  | write_temp_checksums
  | rename_checksums
deriving DecidableEq

/-- The order of steps performed by scrape_all's persist phase (lines
314-316): _save_metadata followed by _save_checksums. -/
def persist_script : List PersistStep :=
  [PersistStep.write_temp_metadata, PersistStep.rename_metadata,
   PersistStep.write_temp_checksums, PersistStep.rename_checksums]

/-- On-disk contents of the two persisted store files. -/
structure DiskPair where
  metadata_file : Option MetaMap
  checksums_file : Option ChecksumMap
deriving DecidableEq

/-- Effect of one completed persist step on the two main files, when the new
in-memory state to be persisted is (newM, newC). -/
def step_effect (newM : MetaMap) (newC : ChecksumMap) (d : DiskPair) :
    PersistStep → DiskPair
  | PersistStep.write_temp_metadata => d
  | PersistStep.rename_metadata => { d with metadata_file := some newM }
  | PersistStep.write_temp_checksums => d
  | PersistStep.rename_checksums => { d with checksums_file := some newC }

/-- On-disk state after the first k steps of the persist script have
completed, starting from pre-operation state d0: the process may be
interrupted at any such point (a step in progress has not yet changed either
main file, since only a rename changes them). -/
def disk_after (newM : MetaMap) (newC : ChecksumMap) (d0 : DiskPair) (k : Nat) : DiskPair :=
  (persist_script.take k).foldl (step_effect newM newC) d0

/-- USCISDataScraper._is_duplicate (lines 141-163) with the temporary file's
checksum already computed: true if the URL already has a metadata record or
the checksum already appears in self.checksums. -/
def is_duplicate (md : MetaMap) (cs : ChecksumMap) (url checksum : String) : Bool :=
  (lookupKey url md).isSome || (lookupKey checksum cs).isSome

/-- How one call to _download_file (lines 201-258) interacts with the outside
world.  streamError: an exception inside the streaming with-block (network
error, timeout, disk full while writing); tmp_path is assigned only after
that block (line 231), so the except handler's guard sees tmp_path = None.
fetchedThenError c: the temporary file was fully written with content
checksum c, and a later step raised before the rename into place completed
(checksum read, rename failure); tmp_path is set and the file exists.
fetched c commitFails: the temporary file was fully written with checksum c
and, if not a duplicate, the rename succeeded; commitFails means a step after
the rename raised (re-reading the checksum at line 242 or stat at line 247),
in which case the final file exists but nothing was recorded. -/
inductive FetchOutcome where
  | streamError
  | fetchedThenError (checksum : String)
  | fetched (checksum : String) (commitFails : Bool)
deriving DecidableEq

/-- Result of _download_file: the two store maps afterwards, the returned
bool, whether the temporary file was deleted, and whether the final
destination file was written. -/
structure DownloadResult where
  metadata : MetaMap
  checksums : ChecksumMap
  ok : Bool
  tempDeleted : Bool
  finalWritten : Bool
deriving DecidableEq

/-- USCISDataScraper._download_file (lines 201-258).  The except handler
(lines 254-258) deletes the temporary file only when tmp_path was assigned
and the file still exists, hence tempDeleted := false for streamError and for
a failure after the rename. -/
def download_file (url filename now : String) (size_bytes : Nat)
    (outcome : FetchOutcome) (md : MetaMap) (cs : ChecksumMap) : DownloadResult :=
  match outcome with
  | FetchOutcome.streamError =>
      { metadata := md, checksums := cs, ok := false,
        tempDeleted := false, finalWritten := false }
  | FetchOutcome.fetchedThenError _ =>
      { metadata := md, checksums := cs, ok := false,
        tempDeleted := true, finalWritten := false }
  | FetchOutcome.fetched checksum commitFails =>
      if is_duplicate md cs url checksum then
        { metadata := md, checksums := cs, ok := false,
          tempDeleted := true, finalWritten := false }
      else if commitFails then
        { metadata := md, checksums := cs, ok := false,
          tempDeleted := false, finalWritten := true }
      else
        { metadata := updateKey url
            { filename := filename, download_date := now,
              checksum := checksum, size_bytes := size_bytes } md,
          checksums := updateKey checksum url cs,
          ok := true, tempDeleted := false, finalWritten := true }

/-- One discovered link as scrape_visa_type processes it (lines 288-297): its
URL, the destination filename derived from it, and how the download of it
goes. -/
structure Link where
  url : String
  filename : String
  size_bytes : Nat
  outcome : FetchOutcome

/-- State threaded through scrape_visa_type's download loop: the store maps
and the count of new downloads. -/
structure ScrapeState where
  metadata : MetaMap
  checksums : ChecksumMap
  download_count : Nat
deriving DecidableEq

/-- USCISDataScraper.scrape_visa_type's download loop (lines 285-299): every
link of the list is passed to _download_file in order; the count grows by one
exactly when _download_file returns True. -/
def scrape_step (now : String) (st : ScrapeState) (link : Link) : ScrapeState :=
  let r := download_file link.url link.filename now link.size_bytes
    link.outcome st.metadata st.checksums
  { metadata := r.metadata, checksums := r.checksums,
    download_count := st.download_count + (if r.ok then 1 else 0) }

/-- The loop itself: every link of the list is processed in order. -/
def scrape_visa_type (now : String) (links : List Link) (md : MetaMap)
    (cs : ChecksumMap) : ScrapeState :=
  links.foldl (scrape_step now)
    { metadata := md, checksums := cs, download_count := 0 }

/-- Where cleanup_inconsistencies finds a tracked record's file: missing in
every searched directory, or found with the given recomputed content
checksum (lines 337-363: the search over visa-type folders and the root, then
_calculate_checksum of the found path). -/
inductive DiskStatus where
  | missing
  | found (checksum : String)
deriving DecidableEq

/-- State of cleanup_inconsistencies: the two store maps plus the issues
report being accumulated (lines 328-332). -/
structure CleanupState where
  metadata : MetaMap
  checksums : ChecksumMap
  missing_files : List String
  checksum_mismatches : List String
  orphaned_files : List String
deriving DecidableEq

/-- Body of cleanup_inconsistencies' main loop for one metadata entry (lines
337-369).  Missing file: append to missing_files, delete the record, delete
its checksum's binding if present.  Found with a different checksum: append
to checksum_mismatches, overwrite the record's checksum field, and bind the
new checksum to the URL in self.checksums; the loop does not delete the old
checksum's binding. -/
def cleanup_step (disk : String → DiskStatus) (st : CleanupState)
    (entry : String × DownloadRecord) : CleanupState :=
  match disk entry.2.filename with
  | DiskStatus.missing =>
      { st with
        metadata := eraseKey entry.1 st.metadata,
        checksums := eraseKey entry.2.checksum st.checksums,
        missing_files := st.missing_files ++ [entry.2.filename] }
  | DiskStatus.found current_checksum =>
      if current_checksum ≠ entry.2.checksum then
        { st with
          metadata := updateKey entry.1
            { entry.2 with checksum := current_checksum } st.metadata,
          checksums := updateKey current_checksum entry.1 st.checksums,
          checksum_mismatches := st.checksum_mismatches ++ [entry.2.filename] }
      else st

/-- Orphan scan of cleanup_inconsistencies (lines 371-378): every file
present under the visa-type directories whose name no tracked record claims
is reported as orphaned; nothing else is touched. -/
def orphan_scan (dirFiles : List String) (st : CleanupState) : CleanupState :=
  { st with orphaned_files :=
      dirFiles.filter (fun f => !(st.metadata.any (fun p => p.2.filename == f))) }

/-- USCISDataScraper.cleanup_inconsistencies (lines 321-387).  The loop
iterates over a snapshot of self.metadata's items while mutating the maps;
disk gives each recorded filename's on-disk status, dirFiles lists the names
of the files actually present under the visa-type directories for the orphan
scan (lines 371-378), which only reports and mutates nothing. -/
def cleanup_inconsistencies (disk : String → DiskStatus) (dirFiles : List String)
    (md : MetaMap) (cs : ChecksumMap) : CleanupState :=
  orphan_scan dirFiles
    (md.foldl (cleanup_step disk)
      { metadata := md, checksums := cs, missing_files := [],
        checksum_mismatches := [], orphaned_files := [] })

/-- The store invariant claimed by the spec: no two byUrl entries share a
checksum, and every byChecksum binding points back to a byUrl entry whose
checksum field is that key (with the first conjunct, to exactly one). -/
def storeInv (md : MetaMap) (cs : ChecksumMap) : Prop :=
  (∀ p ∈ md, ∀ q ∈ md, p.1 ≠ q.1 → p.2.checksum ≠ q.2.checksum) ∧
  (∀ e ∈ cs, ∃ p, p ∈ md ∧ p.1 = e.2 ∧ p.2.checksum = e.1)

instance (md : MetaMap) (cs : ChecksumMap) : Decidable (storeInv md cs) := by
  unfold storeInv; infer_instance

/-- Retry constants (lines 22-25). -/
def MAX_RETRIES : Nat := 5

/-- Base backoff in seconds (line 24). -/
def BACKOFF_BASE_SECONDS : Nat := 60

/-- Backoff cap in seconds (line 25). -/
def BACKOFF_MAX_SECONDS : Nat := 30 * 60

/-- Sleep computed after failing attempt n when another attempt remains
(lines 533-536): min(BACKOFF_BASE_SECONDS * 2^(n-1), BACKOFF_MAX_SECONDS). -/
def backoff_seconds (attempt : Nat) : Nat :=
  min (BACKOFF_BASE_SECONDS * 2 ^ (attempt - 1)) BACKOFF_MAX_SECONDS

/-- The while loop of scheduled_job_with_retry (lines 493-540), with
fuel = MAX_RETRIES - attempt (so fuel = 0 exactly when the guard
attempt < MAX_RETRIES fails).  outcomes n tells whether the n-th attempt's
cycle completes without an exception.  Returns the sleeps performed in order,
the final value of attempt, and the final value of success. -/
def job_loop (outcomes : Nat → Bool) : Nat → Nat → List Nat → List Nat × Nat × Bool
  | 0, attempt, sleeps => (sleeps, attempt, false)
  | fuel + 1, attempt, sleeps =>
      if outcomes (attempt + 1) then (sleeps, attempt + 1, true)
      else if fuel = 0 then (sleeps, attempt + 1, false)
      else job_loop outcomes fuel (attempt + 1)
        (sleeps ++ [backoff_seconds (attempt + 1)])

/-- The message send_failure_notification writes into SCRAPE_FAILURE.txt
(lines 460-464); now stands for datetime.now() and dir for download_dir. -/
def failure_message (attempt : Nat) (now dir : String) : String :=
  "ALERT: USCIS scraper failed after " ++ toString attempt ++ " attempts" ++
    "\nTime: " ++ now ++ "\nCheck logs in: " ++ dir ++ "/logs"

/-- The failure-flag clearing of a successful attempt (lines 520-523): unlink
SCRAPE_FAILURE.txt if it exists; when it is already absent nothing is done
and no error occurs. -/
def clear_failure_flag (failure_file : Option String) : Option String :=
  match failure_file with
  | some _ => none
  | none => none

/-- Result of one scheduled_job_with_retry invocation: sleeps performed, the
final attempt counter, the success flag, and the SCRAPE_FAILURE.txt content
afterwards (none when absent). -/
structure JobResult where
  sleeps : List Nat
  attempts : Nat
  success : Bool
  failure_file : Option String

/-- scheduled_job_with_retry (lines 481-544): run the retry loop; a
successful attempt clears any previous failure flag before setting success;
if no attempt succeeded, send_failure_notification writes the failure message
(line 544), overwriting whatever was there. -/
def scheduled_job_with_retry (outcomes : Nat → Bool) (now dir : String)
    (failure_file0 : Option String) : JobResult :=
  let r := job_loop outcomes MAX_RETRIES 0 []
  { sleeps := r.1, attempts := r.2.1, success := r.2.2,
    failure_file :=
      if r.2.2 = true then clear_failure_flag failure_file0
      else some (failure_message r.2.1 now dir) }

/-- Lookup after updating the same key: the new value. -/
theorem lookupKey_updateKey_self {α : Type} (k : String) (v : α)
    (l : List (String × α)) : lookupKey k (updateKey k v l) = some v := by
  induction l with
  | nil => simp [updateKey, lookupKey]
  | cons p rest ih =>
      by_cases h : p.1 = k
      · simp [updateKey, h, lookupKey]
      · simp [updateKey, h, lookupKey, ih]

/-- Lookup after updating a different key: unchanged. -/
theorem lookupKey_updateKey_ne {α : Type} (k k0 : String) (v : α)
    (l : List (String × α)) (h : k0 ≠ k) :
    lookupKey k (updateKey k0 v l) = lookupKey k l := by
  induction l with
  | nil => simp [updateKey, lookupKey, h]
  | cons p rest ih =>
      by_cases hp : p.1 = k0
      · simp [updateKey, hp, lookupKey, h, hp.symm ▸ h]
      · simp [updateKey, hp, lookupKey, ih]

/-- Lookup after erasing the same key: gone. -/
theorem lookupKey_eraseKey_self {α : Type} (k : String)
    (l : List (String × α)) : lookupKey k (eraseKey k l) = none := by
  induction l with
  | nil => simp [eraseKey, lookupKey]
  | cons p rest ih =>
      by_cases h : p.1 = k
      · simp [eraseKey, h, ih]
      · simp [eraseKey, h, lookupKey, ih]

/-- Lookup after erasing a different key: unchanged. -/
theorem lookupKey_eraseKey_ne {α : Type} (k k0 : String)
    (l : List (String × α)) (h : k0 ≠ k) :
    lookupKey k (eraseKey k0 l) = lookupKey k l := by
  induction l with
  | nil => simp [eraseKey, lookupKey]
  | cons p rest ih =>
      by_cases hp : p.1 = k0
      · simp [eraseKey, hp, lookupKey, h, ih]
      · simp [eraseKey, hp, lookupKey, ih]

/-- C3 counterexample: with a metadata (or checksums) file that exists but
cannot be parsed, _load_metadata and _load_checksums return an empty store
and no error of any kind escapes, contrary to the claimed CorruptStateError. -/
theorem load_corrupt_returns_empty_cex :
    load_metadata (some FileContent.corrupt) = Except.ok ([] : MetaMap) ∧
    load_checksums (some FileContent.corrupt) = Except.ok ([] : ChecksumMap) ∧
    ¬ (∃ e, load_metadata (some FileContent.corrupt) = Except.error e) := by
  refine ⟨rfl, rfl, ?_⟩
  rintro ⟨e, he⟩
  exact Except.noConfusion he

/-- C3 (amended): loading with no persisted file returns an empty store;
loading a parseable file returns its contents; loading a file that exists but
cannot be parsed also returns an empty store (the parse error is caught and
logged, and no CorruptStateError reaches the caller). -/
theorem load_store_behavior (v : MetaMap) (w : ChecksumMap) :
    load_metadata none = Except.ok [] ∧
    load_metadata (some (FileContent.parsed v)) = Except.ok v ∧
    load_metadata (some FileContent.corrupt) = Except.ok [] ∧
    load_checksums none = Except.ok [] ∧
    load_checksums (some (FileContent.parsed w)) = Except.ok w ∧
    load_checksums (some FileContent.corrupt) = Except.ok [] :=
  ⟨rfl, rfl, rfl, rfl, rfl, rfl⟩

/-- C6 counterexample: an I/O failure inside _save_metadata leaves the
previously persisted file as it was, but no error is raised to the caller
(the except branch logs and returns), so the cycle is not treated as failed. -/
theorem save_failure_swallowed_cex :
    (save_metadata
        [("u1", { filename := "f1", download_date := "d", checksum := "c1",
                  size_bytes := 1 })]
        (some []) WriteOutcome.ioError).disk = some [] ∧
    ¬ ((save_metadata
        [("u1", { filename := "f1", download_date := "d", checksum := "c1",
                  size_bytes := 1 })]
        (some []) WriteOutcome.ioError).raised = true) := by
  exact ⟨rfl, by decide⟩

/-- C6 (amended): on an I/O failure in _save_metadata or _save_checksums the
previously persisted on-disk file is left untouched and the temporary file is
removed, but the exception is caught and logged inside the save routine: no
error is surfaced to the caller, so the enclosing cycle is not treated as
failed. -/
theorem save_failure_behavior (stm : MetaMap) (stc : ChecksumMap)
    (dm : Option MetaMap) (dc : Option ChecksumMap) :
    save_metadata stm dm WriteOutcome.ioError =
      { disk := dm, raised := false, temp_left := false } ∧
    save_checksums stc dc WriteOutcome.ioError =
      { disk := dc, raised := false, temp_left := false } :=
  ⟨rfl, rfl⟩

/-- C7 counterexample: interrupting after the metadata rename but before the
checksums rename (2 completed steps) leaves new metadata next to old
checksums on disk, a state that is neither the full pre-operation state nor
the full post-operation state of the store. -/
theorem persist_between_renames_cex :
    ¬ (disk_after
        [("u1", { filename := "f1", download_date := "d", checksum := "c1",
                  size_bytes := 1 })]
        [("c1", "u1")]
        { metadata_file := some [], checksums_file := some [] } 2 =
        { metadata_file := some [], checksums_file := some [] } ∨
       disk_after
        [("u1", { filename := "f1", download_date := "d", checksum := "c1",
                  size_bytes := 1 })]
        [("c1", "u1")]
        { metadata_file := some [], checksums_file := some [] } 2 =
        { metadata_file := some
            [("u1", { filename := "f1", download_date := "d", checksum := "c1",
                      size_bytes := 1 })],
          checksums_file := some [("c1", "u1")] }) := by
  decide

/-- C7 (amended): each persisted file individually is atomic: at every
interruption point metadata.json is either its complete pre-operation or its
complete post-operation content, and likewise checksums.json, and after all
four steps both files hold the post-operation state; but the two files are
renamed by two separate operations, so the store as a whole can be observed
as new metadata with old checksums between them. -/
theorem persist_per_file_atomic (newM : MetaMap) (newC : ChecksumMap)
    (d0 : DiskPair) (k : Nat) :
    ((disk_after newM newC d0 k).metadata_file = d0.metadata_file ∨
     (disk_after newM newC d0 k).metadata_file = some newM) ∧
    ((disk_after newM newC d0 k).checksums_file = d0.checksums_file ∨
     (disk_after newM newC d0 k).checksums_file = some newC) ∧
    disk_after newM newC d0 4 =
      { metadata_file := some newM, checksums_file := some newC } := by
  have hfull : ∀ n : Nat, disk_after newM newC d0 (n + 4) =
      { metadata_file := some newM, checksums_file := some newC } := by
    intro n
    unfold disk_after
    rw [List.take_of_length_le (by simp [persist_script])]
    rfl
  refine ⟨?_, ?_, rfl⟩
  · match k with
    | 0 => exact Or.inl rfl
    | 1 => exact Or.inl rfl
    | 2 => exact Or.inr rfl
    | 3 => exact Or.inr rfl
    | n + 4 => exact Or.inr (by rw [hfull n])
  · match k with
    | 0 => exact Or.inl rfl
    | 1 => exact Or.inl rfl
    | 2 => exact Or.inl rfl
    | 3 => exact Or.inl rfl
    | n + 4 => exact Or.inr (by rw [hfull n])

/-- C8: when the fully transferred content is a duplicate (the URL already
has a record in self.metadata, or the computed checksum already appears in
self.checksums), _download_file deletes the temporary file, returns False,
and leaves both maps exactly unchanged. -/
theorem download_file_skips_duplicate (url filename now : String)
    (size_bytes : Nat) (checksum : String) (commitFails : Bool)
    (md : MetaMap) (cs : ChecksumMap)
    (hdup : (lookupKey url md).isSome = true ∨
            (lookupKey checksum cs).isSome = true) :
    download_file url filename now size_bytes
      (FetchOutcome.fetched checksum commitFails) md cs =
      { metadata := md, checksums := cs, ok := false,
        tempDeleted := true, finalWritten := false } := by
  have h : is_duplicate md cs url checksum = true := by
    rcases hdup with h | h <;> simp [is_duplicate, h]
  simp [download_file, h]

/-- Witness for C8 at a concrete duplicate: the URL u1 is already recorded. -/
theorem download_file_skips_duplicate_witness :
    ((lookupKey "u1"
        ([("u1", { filename := "f1", download_date := "d", checksum := "c1",
                   size_bytes := 1 })] : MetaMap)).isSome = true ∨
     (lookupKey "c9" ([] : ChecksumMap)).isSome = true) ∧
    download_file "u1" "f1" "d" 1 (FetchOutcome.fetched "c9" false)
      [("u1", { filename := "f1", download_date := "d", checksum := "c1",
                size_bytes := 1 })] [] =
      { metadata := [("u1", { filename := "f1", download_date := "d",
                              checksum := "c1", size_bytes := 1 })],
        checksums := [], ok := false, tempDeleted := true,
        finalWritten := false } :=
  ⟨Or.inl rfl,
   download_file_skips_duplicate "u1" "f1" "d" 1 "c9" false
     [("u1", { filename := "f1", download_date := "d", checksum := "c1",
               size_bytes := 1 })] [] (Or.inl rfl)⟩

/-- C2 counterexample: when every attempt fails, the loop sleeps only after
failing attempts 1 through 4 (60, 120, 240, 480 seconds); after the 5th
failing attempt the guard attempt < MAX_RETRIES is false and no 960-second
sleep is performed, so the performed sleeps are not the claimed five-element
schedule. -/
theorem backoff_claimed_schedule_cex :
    (scheduled_job_with_retry (fun _ => false) "t1" "d1" none).sleeps =
      [60, 120, 240, 480] ∧
    ¬ ((scheduled_job_with_retry (fun _ => false) "t1" "d1" none).sleeps =
      [60, 120, 240, 480, 960]) :=
  ⟨rfl, by decide⟩

/-- C2 (amended): if every cycle attempt fails, the sleeps performed are
exactly 60, 120, 240, 480 seconds after failing attempts 1 through 4, each
equal to min(BACKOFF_BASE_SECONDS * 2^(n-1), BACKOFF_MAX_SECONDS); no sleep
follows the 5th failing attempt, and the failure signal is written only after
the 5th attempt has failed. -/
theorem backoff_schedule_amended (outcomes : Nat → Bool) (now dir : String)
    (failure_file0 : Option String) (h : outcomes = fun _ => false) :
    (scheduled_job_with_retry outcomes now dir failure_file0).sleeps =
      [60, 120, 240, 480] ∧
    (scheduled_job_with_retry outcomes now dir failure_file0).sleeps =
      (List.range 4).map (fun i => backoff_seconds (i + 1)) ∧
    (scheduled_job_with_retry outcomes now dir failure_file0).attempts =
      MAX_RETRIES ∧
    (scheduled_job_with_retry outcomes now dir failure_file0).success = false ∧
    (scheduled_job_with_retry outcomes now dir failure_file0).failure_file =
      some (failure_message MAX_RETRIES now dir) := by
  subst h
  exact ⟨rfl, rfl, rfl, rfl, rfl⟩

/-- Witness for C2's amended theorem at the all-failing outcome function. -/
theorem backoff_schedule_amended_witness :
    ((fun _ : Nat => false) = fun _ : Nat => false) ∧
    ((scheduled_job_with_retry (fun _ => false) "t2" "d2" none).sleeps =
      [60, 120, 240, 480] ∧
    (scheduled_job_with_retry (fun _ => false) "t2" "d2" none).sleeps =
      (List.range 4).map (fun i => backoff_seconds (i + 1)) ∧
    (scheduled_job_with_retry (fun _ => false) "t2" "d2" none).attempts =
      MAX_RETRIES ∧
    (scheduled_job_with_retry (fun _ => false) "t2" "d2" none).success = false ∧
    (scheduled_job_with_retry (fun _ => false) "t2" "d2" none).failure_file =
      some (failure_message MAX_RETRIES "t2" "d2")) :=
  ⟨rfl, backoff_schedule_amended (fun _ => false) "t2" "d2" none rfl⟩

/-- Exiting the retry loop without success means every attempt ran: the final
attempt counter is the starting counter plus the available fuel. -/
theorem job_loop_fail_attempts (outcomes : Nat → Bool) :
    ∀ (fuel attempt : Nat) (sleeps : List Nat),
      (job_loop outcomes fuel attempt sleeps).2.2 = false →
      (job_loop outcomes fuel attempt sleeps).2.1 = attempt + fuel := by
  intro fuel
  induction fuel with
  | zero => intro attempt sleeps _; rfl
  | succ n ih =>
      intro attempt sleeps h
      by_cases ho : outcomes (attempt + 1) = true
      · simp [job_loop, ho] at h
      · by_cases hn : n = 0
        · subst hn
          simp [job_loop, ho]
        · rw [job_loop] at h ⊢
          simp only [ho, if_false, Bool.false_eq_true, if_neg hn] at h ⊢
          rw [ih (attempt + 1) (sleeps ++ [backoff_seconds (attempt + 1)]) h]
          omega

/-- The failure message is never the empty string. -/
theorem failure_message_ne_empty (attempt : Nat) (now dir : String) :
    failure_message attempt now dir ≠ "" := by
  intro h
  have h2 := congrArg String.length h
  simp only [failure_message, String.length_append] at h2
  rw [show ("ALERT: USCIS scraper failed after ").length = 34 from rfl,
      show ("" : String).length = 0 from rfl] at h2
  omega

/-- C10: after scheduled_job_with_retry, if some attempt succeeded the
failure-signal file is absent (and clearing an already absent flag is a
no-op), and if no attempt succeeded the file holds the non-empty failure
message written after the MAX_RETRIES-th attempt failed. -/
theorem failure_signal_lifecycle (outcomes : Nat → Bool) (now dir : String)
    (failure_file0 : Option String) :
    ((scheduled_job_with_retry outcomes now dir failure_file0).success = true →
      (scheduled_job_with_retry outcomes now dir failure_file0).failure_file =
        none) ∧
    ((scheduled_job_with_retry outcomes now dir failure_file0).success = false →
      (scheduled_job_with_retry outcomes now dir failure_file0).failure_file =
        some (failure_message MAX_RETRIES now dir) ∧
      failure_message MAX_RETRIES now dir ≠ "") ∧
    clear_failure_flag none = none := by
  refine ⟨?_, ?_, rfl⟩
  · intro hs
    simp only [scheduled_job_with_retry] at hs ⊢
    rw [if_pos hs]
    cases failure_file0 <;> rfl
  · intro hs
    simp only [scheduled_job_with_retry] at hs ⊢
    have ha := job_loop_fail_attempts outcomes MAX_RETRIES 0 [] hs
    rw [if_neg (by rw [hs]; exact Bool.false_ne_true), ha, Nat.zero_add]
    exact ⟨rfl, failure_message_ne_empty MAX_RETRIES now dir⟩

/-- Witness for C10 at two concrete runs: an immediately succeeding run
clears a previously present flag, and an always-failing run writes the
failure message. -/
theorem failure_signal_lifecycle_witness :
    ((scheduled_job_with_retry (fun _ => true) "t3" "d3" (some "old")).success
        = true ∧
     (scheduled_job_with_retry (fun _ => true) "t3" "d3" (some "old")).failure_file
        = none) ∧
    ((scheduled_job_with_retry (fun _ => false) "t3" "d3" none).success
        = false ∧
     (scheduled_job_with_retry (fun _ => false) "t3" "d3" none).failure_file
        = some (failure_message MAX_RETRIES "t3" "d3")) :=
  ⟨⟨rfl, (failure_signal_lifecycle (fun _ => true) "t3" "d3" (some "old")).1 rfl⟩,
   ⟨rfl, ((failure_signal_lifecycle (fun _ => false) "t3" "d3" none).2.1 rfl).1⟩⟩

/-- The orphan scan leaves the metadata map of the repair fold unchanged. -/
theorem cleanup_inconsistencies_metadata (disk : String → DiskStatus)
    (dirFiles : List String) (md : MetaMap) (cs : ChecksumMap) :
    (cleanup_inconsistencies disk dirFiles md cs).metadata =
      (md.foldl (cleanup_step disk)
        { metadata := md, checksums := cs, missing_files := [],
          checksum_mismatches := [], orphaned_files := [] }).metadata := rfl

/-- The orphan scan leaves the checksum map of the repair fold unchanged. -/
theorem cleanup_inconsistencies_checksums (disk : String → DiskStatus)
    (dirFiles : List String) (md : MetaMap) (cs : ChecksumMap) :
    (cleanup_inconsistencies disk dirFiles md cs).checksums =
      (md.foldl (cleanup_step disk)
        { metadata := md, checksums := cs, missing_files := [],
          checksum_mismatches := [], orphaned_files := [] }).checksums := rfl

/-- The orphan scan leaves the missing-files report of the fold unchanged. -/
theorem cleanup_inconsistencies_missing (disk : String → DiskStatus)
    (dirFiles : List String) (md : MetaMap) (cs : ChecksumMap) :
    (cleanup_inconsistencies disk dirFiles md cs).missing_files =
      (md.foldl (cleanup_step disk)
        { metadata := md, checksums := cs, missing_files := [],
          checksum_mismatches := [], orphaned_files := [] }).missing_files := rfl

/-- The orphan scan leaves the mismatch report of the fold unchanged. -/
theorem cleanup_inconsistencies_mismatches (disk : String → DiskStatus)
    (dirFiles : List String) (md : MetaMap) (cs : ChecksumMap) :
    (cleanup_inconsistencies disk dirFiles md cs).checksum_mismatches =
      (md.foldl (cleanup_step disk)
        { metadata := md, checksums := cs, missing_files := [],
          checksum_mismatches := [], orphaned_files := [] }).checksum_mismatches := rfl

/-- Processing records whose URLs all differ from url never changes what the
metadata map holds at url. -/
theorem cleanup_foldl_metadata_lookup (disk : String → DiskStatus) (url : String) :
    ∀ (l : List (String × DownloadRecord)) (st : CleanupState),
      (∀ p ∈ l, p.1 ≠ url) →
      lookupKey url (l.foldl (cleanup_step disk) st).metadata =
        lookupKey url st.metadata := by
  intro l
  induction l with
  | nil => intro st _; rfl
  | cons e t ih =>
      intro st hl
      rw [List.foldl_cons, ih (cleanup_step disk st e)
        (fun p hp => hl p (List.mem_cons_of_mem e hp))]
      have he : e.1 ≠ url := hl e (List.mem_cons_self e t)
      cases hd : disk e.2.filename with
      | missing =>
          simp only [cleanup_step, hd]
          exact lookupKey_eraseKey_ne url e.1 st.metadata he
      | found c =>
          simp only [cleanup_step, hd]
          by_cases hc : c ≠ e.2.checksum
          · rw [if_pos hc]
            exact lookupKey_updateKey_ne url e.1 _ st.metadata he
          · rw [if_neg hc]

/-- Processing records whose URLs all differ from url cannot make the
checksum map point to url at key c0 if it did not already. -/
theorem cleanup_foldl_checksums_ne (disk : String → DiskStatus) (url c0 : String) :
    ∀ (l : List (String × DownloadRecord)) (st : CleanupState),
      (∀ p ∈ l, p.1 ≠ url) →
      lookupKey c0 st.checksums ≠ some url →
      lookupKey c0 (l.foldl (cleanup_step disk) st).checksums ≠ some url := by
  intro l
  induction l with
  | nil => intro st _ h; exact h
  | cons e t ih =>
      intro st hl hne
      rw [List.foldl_cons]
      refine ih _ (fun p hp => hl p (List.mem_cons_of_mem e hp)) ?_
      have he : e.1 ≠ url := hl e (List.mem_cons_self e t)
      cases hd : disk e.2.filename with
      | missing =>
          simp only [cleanup_step, hd]
          show lookupKey c0 (eraseKey e.2.checksum st.checksums) ≠ some url
          by_cases hk : e.2.checksum = c0
          · rw [hk, lookupKey_eraseKey_self]
            exact fun h => Option.noConfusion h
          · rw [lookupKey_eraseKey_ne c0 e.2.checksum st.checksums hk]
            exact hne
      | found c =>
          simp only [cleanup_step, hd]
          by_cases hc : c ≠ e.2.checksum
          · rw [if_pos hc]
            show lookupKey c0 (updateKey c e.1 st.checksums) ≠ some url
            by_cases hk : c = c0
            · rw [hk, lookupKey_updateKey_self]
              intro heq
              exact he (Option.some.inj heq)
            · rw [lookupKey_updateKey_ne c0 c e.1 st.checksums hk]
              exact hne
          · rw [if_neg hc]
            exact hne

/-- Processing records whose recorded checksums differ from c0 and whose
recomputed checksums (when they differ from the record) also differ from c0
leaves the checksum map's value at c0 exactly as it was. -/
theorem cleanup_foldl_checksums_eq (disk : String → DiskStatus) (c0 : String) :
    ∀ (l : List (String × DownloadRecord)) (st : CleanupState),
      (∀ p ∈ l, p.2.checksum ≠ c0 ∧
        ∀ c, disk p.2.filename = DiskStatus.found c → c ≠ p.2.checksum → c ≠ c0) →
      lookupKey c0 (l.foldl (cleanup_step disk) st).checksums =
        lookupKey c0 st.checksums := by
  intro l
  induction l with
  | nil => intro st _; rfl
  | cons e t ih =>
      intro st hl
      rw [List.foldl_cons, ih _ (fun p hp => hl p (List.mem_cons_of_mem e hp))]
      obtain ⟨hck, hfnd⟩ := hl e (List.mem_cons_self e t)
      cases hd : disk e.2.filename with
      | missing =>
          simp only [cleanup_step, hd]
          show lookupKey c0 (eraseKey e.2.checksum st.checksums) =
            lookupKey c0 st.checksums
          exact lookupKey_eraseKey_ne c0 e.2.checksum st.checksums hck
      | found c =>
          simp only [cleanup_step, hd]
          by_cases hc : c ≠ e.2.checksum
          · rw [if_pos hc]
            show lookupKey c0 (updateKey c e.1 st.checksums) =
              lookupKey c0 st.checksums
            exact lookupKey_updateKey_ne c0 c e.1 st.checksums (hfnd c hd hc)
          · rw [if_neg hc]

/-- Once the checksum map holds nothing at c0, processing records whose
recomputed checksums (when they differ from the record) are not c0 keeps it
empty at c0: erasures keep it empty, and only a mismatch repair inserts. -/
theorem cleanup_foldl_checksums_none (disk : String → DiskStatus) (c0 : String) :
    ∀ (l : List (String × DownloadRecord)) (st : CleanupState),
      (∀ p ∈ l, ∀ c, disk p.2.filename = DiskStatus.found c →
        c ≠ p.2.checksum → c ≠ c0) →
      lookupKey c0 st.checksums = none →
      lookupKey c0 (l.foldl (cleanup_step disk) st).checksums = none := by
  intro l
  induction l with
  | nil => intro st _ h; exact h
  | cons e t ih =>
      intro st hl hnone
      rw [List.foldl_cons]
      refine ih _ (fun p hp => hl p (List.mem_cons_of_mem e hp)) ?_
      have hfnd := hl e (List.mem_cons_self e t)
      cases hd : disk e.2.filename with
      | missing =>
          simp only [cleanup_step, hd]
          show lookupKey c0 (eraseKey e.2.checksum st.checksums) = none
          by_cases hk : e.2.checksum = c0
          · rw [hk, lookupKey_eraseKey_self]
          · rw [lookupKey_eraseKey_ne c0 e.2.checksum st.checksums hk]
            exact hnone
      | found c =>
          simp only [cleanup_step, hd]
          by_cases hc : c ≠ e.2.checksum
          · rw [if_pos hc]
            show lookupKey c0 (updateKey c e.1 st.checksums) = none
            rw [lookupKey_updateKey_ne c0 c e.1 st.checksums (hfnd c hd hc)]
            exact hnone
          · rw [if_neg hc]
            exact hnone

/-- The missing-files report only grows during the repair fold. -/
theorem cleanup_foldl_missing_mono (disk : String → DiskStatus) (f : String) :
    ∀ (l : List (String × DownloadRecord)) (st : CleanupState),
      f ∈ st.missing_files →
      f ∈ (l.foldl (cleanup_step disk) st).missing_files := by
  intro l
  induction l with
  | nil => intro st h; exact h
  | cons e t ih =>
      intro st h
      rw [List.foldl_cons]
      refine ih _ ?_
      cases hd : disk e.2.filename with
      | missing =>
          simp only [cleanup_step, hd]
          show f ∈ st.missing_files ++ [e.2.filename]
          exact List.mem_append_left _ h
      | found c =>
          simp only [cleanup_step, hd]
          by_cases hc : c ≠ e.2.checksum
          · rw [if_pos hc]
            exact h
          · rw [if_neg hc]
            exact h

/-- The checksum-mismatch report only grows during the repair fold. -/
theorem cleanup_foldl_mismatch_mono (disk : String → DiskStatus) (f : String) :
    ∀ (l : List (String × DownloadRecord)) (st : CleanupState),
      f ∈ st.checksum_mismatches →
      f ∈ (l.foldl (cleanup_step disk) st).checksum_mismatches := by
  intro l
  induction l with
  | nil => intro st h; exact h
  | cons e t ih =>
      intro st h
      rw [List.foldl_cons]
      refine ih _ ?_
      cases hd : disk e.2.filename with
      | missing =>
          simp only [cleanup_step, hd]
          show f ∈ st.checksum_mismatches
          exact h
      | found c =>
          simp only [cleanup_step, hd]
          by_cases hc : c ≠ e.2.checksum
          · rw [if_pos hc]
            show f ∈ st.checksum_mismatches ++ [e.2.filename]
            exact List.mem_append_left _ h
          · rw [if_neg hc]
            exact h

/-- C4: for a tracked record whose file is found in none of the searched
directories, cleanup_inconsistencies removes the record from self.metadata,
removes its checksum entry from self.checksums (afterwards the recorded
checksum never maps to this URL, and the key is absent outright whenever no
other record's mismatch repair reintroduces that checksum value), and appends
its filename to the missing_files list of the returned report. -/
theorem cleanup_removes_missing_record (disk : String → DiskStatus)
    (dirFiles : List String) (md : MetaMap) (cs : ChecksumMap)
    (url : String) (meta : DownloadRecord)
    (hnd : (md.map Prod.fst).Nodup)
    (hmem : (url, meta) ∈ md)
    (hmiss : disk meta.filename = DiskStatus.missing) :
    lookupKey url (cleanup_inconsistencies disk dirFiles md cs).metadata = none ∧
    lookupKey meta.checksum
      (cleanup_inconsistencies disk dirFiles md cs).checksums ≠ some url ∧
    meta.filename ∈ (cleanup_inconsistencies disk dirFiles md cs).missing_files ∧
    ((∀ p ∈ md, ∀ c, disk p.2.filename = DiskStatus.found c →
        c ≠ p.2.checksum → c ≠ meta.checksum) →
      lookupKey meta.checksum
        (cleanup_inconsistencies disk dirFiles md cs).checksums = none) := by
  obtain ⟨l1, l2, hsplit⟩ := List.append_of_mem hmem
  subst hsplit
  rw [List.map_append, List.map_cons] at hnd
  have hnd2 := List.nodup_append.mp hnd
  have hl2 : ∀ p ∈ l2, p.1 ≠ url := by
    intro p hp hpe
    have hmm : url ∈ l2.map Prod.fst := by
      rw [← hpe]; exact List.mem_map_of_mem Prod.fst hp
    exact (List.nodup_cons.mp hnd2.2.1).1 hmm
  have main : ∀ st1 : CleanupState,
      lookupKey url (List.foldl (cleanup_step disk)
        (cleanup_step disk st1 (url, meta)) l2).metadata = none ∧
      lookupKey meta.checksum (List.foldl (cleanup_step disk)
        (cleanup_step disk st1 (url, meta)) l2).checksums ≠ some url ∧
      meta.filename ∈ (List.foldl (cleanup_step disk)
        (cleanup_step disk st1 (url, meta)) l2).missing_files ∧
      ((∀ p ∈ l2, ∀ c, disk p.2.filename = DiskStatus.found c →
          c ≠ p.2.checksum → c ≠ meta.checksum) →
        lookupKey meta.checksum (List.foldl (cleanup_step disk)
          (cleanup_step disk st1 (url, meta)) l2).checksums = none) := by
    intro st1
    have hstep : cleanup_step disk st1 (url, meta) =
        { st1 with metadata := eraseKey url st1.metadata,
                   checksums := eraseKey meta.checksum st1.checksums,
                   missing_files := st1.missing_files ++ [meta.filename] } := by
      simp [cleanup_step, hmiss]
    rw [hstep]
    refine ⟨?_, ?_, ?_, ?_⟩
    · rw [cleanup_foldl_metadata_lookup disk url l2 _ hl2]
      exact lookupKey_eraseKey_self url st1.metadata
    · refine cleanup_foldl_checksums_ne disk url meta.checksum l2 _ hl2 ?_
      show lookupKey meta.checksum (eraseKey meta.checksum st1.checksums) ≠ some url
      rw [lookupKey_eraseKey_self]
      exact fun h => Option.noConfusion h
    · refine cleanup_foldl_missing_mono disk meta.filename l2 _ ?_
      show meta.filename ∈ st1.missing_files ++ [meta.filename]
      exact List.mem_append_right _ (List.mem_singleton.mpr rfl)
    · intro hother
      refine cleanup_foldl_checksums_none disk meta.checksum l2 _ hother ?_
      show lookupKey meta.checksum (eraseKey meta.checksum st1.checksums) = none
      exact lookupKey_eraseKey_self meta.checksum st1.checksums
  simp only [cleanup_inconsistencies_metadata, cleanup_inconsistencies_checksums,
    cleanup_inconsistencies_missing, List.foldl_append, List.foldl_cons]
  have hmain := main (List.foldl (cleanup_step disk)
    { metadata := l1 ++ (url, meta) :: l2, checksums := cs, missing_files := [],
      checksum_mismatches := [], orphaned_files := [] } l1)
  exact ⟨hmain.1, hmain.2.1, hmain.2.2.1,
    fun hother => hmain.2.2.2 (fun p hp c h1 h2 =>
      hother p (List.mem_append_right l1 (List.mem_cons_of_mem _ hp)) c h1 h2)⟩

/-- Witness for C4 at a one-record store whose file is missing on disk. -/
theorem cleanup_removes_missing_record_witness :
    ((([("u1", { filename := "f1", download_date := "d", checksum := "c1",
                 size_bytes := 1 })] : MetaMap).map Prod.fst).Nodup) ∧
    (("u1", ({ filename := "f1", download_date := "d", checksum := "c1",
               size_bytes := 1 } : DownloadRecord)) ∈
      ([("u1", { filename := "f1", download_date := "d", checksum := "c1",
                 size_bytes := 1 })] : MetaMap)) ∧
    ((fun _ : String => DiskStatus.missing) "f1" = DiskStatus.missing) ∧
    (lookupKey "u1" (cleanup_inconsistencies (fun _ => DiskStatus.missing) []
        [("u1", { filename := "f1", download_date := "d", checksum := "c1",
                  size_bytes := 1 })] [("c1", "u1")]).metadata = none ∧
     lookupKey "c1" (cleanup_inconsistencies (fun _ => DiskStatus.missing) []
        [("u1", { filename := "f1", download_date := "d", checksum := "c1",
                  size_bytes := 1 })] [("c1", "u1")]).checksums ≠ some "u1" ∧
     "f1" ∈ (cleanup_inconsistencies (fun _ => DiskStatus.missing) []
        [("u1", { filename := "f1", download_date := "d", checksum := "c1",
                  size_bytes := 1 })] [("c1", "u1")]).missing_files ∧
     ((∀ p ∈ ([("u1", { filename := "f1", download_date := "d", checksum := "c1",
                        size_bytes := 1 })] : MetaMap),
         ∀ c, (fun _ : String => DiskStatus.missing) p.2.filename =
           DiskStatus.found c → c ≠ p.2.checksum → c ≠ "c1") →
       lookupKey "c1" (cleanup_inconsistencies (fun _ => DiskStatus.missing) []
          [("u1", { filename := "f1", download_date := "d", checksum := "c1",
                    size_bytes := 1 })] [("c1", "u1")]).checksums = none)) :=
  ⟨by decide, by decide, rfl,
   cleanup_removes_missing_record (fun _ => DiskStatus.missing) []
     [("u1", { filename := "f1", download_date := "d", checksum := "c1",
               size_bytes := 1 })] [("c1", "u1")] "u1"
     { filename := "f1", download_date := "d", checksum := "c1", size_bytes := 1 }
     (by decide) (by decide) rfl⟩

/-- C5 counterexample: a one-record store whose on-disk file now hashes to
c2 instead of the recorded c1.  After cleanup_inconsistencies the record and
the index carry c2, but the old key c1 still maps to the record's URL u1 in
self.checksums, contradicting the claim that the old checksum no longer maps
to this record after the run. -/
theorem cleanup_stale_checksum_cex :
    lookupKey "c1" (cleanup_inconsistencies
        (fun f => if f = "f1" then DiskStatus.found "c2" else DiskStatus.missing)
        [] [("u1", { filename := "f1", download_date := "d", checksum := "c1",
                     size_bytes := 1 })] [("c1", "u1")]).checksums = some "u1" ∧
    lookupKey "u1" (cleanup_inconsistencies
        (fun f => if f = "f1" then DiskStatus.found "c2" else DiskStatus.missing)
        [] [("u1", { filename := "f1", download_date := "d", checksum := "c1",
                     size_bytes := 1 })] [("c1", "u1")]).metadata =
      some { filename := "f1", download_date := "d", checksum := "c2",
             size_bytes := 1 } := by
  decide

/-- C5 (amended): for a tracked record whose file is found with a recomputed
checksum differing from the recorded one, cleanup_inconsistencies updates the
record's checksum field, binds the new checksum to the record's URL in
self.checksums, and appends the filename to the checksum_mismatches report;
the old checksum's binding in self.checksums is left exactly as it was (in
particular, if it mapped to this record's URL it still does: the old key is
not removed).  The interference hypothesis keeps other records' checksums
away from the two keys concerned, which is the generic situation. -/
theorem cleanup_mismatch_repair (disk : String → DiskStatus)
    (dirFiles : List String) (md : MetaMap) (cs : ChecksumMap)
    (url : String) (meta : DownloadRecord) (current : String)
    (hnd : (md.map Prod.fst).Nodup)
    (hmem : (url, meta) ∈ md)
    (hfound : disk meta.filename = DiskStatus.found current)
    (hne : current ≠ meta.checksum)
    (hother : ∀ p ∈ md, p.1 ≠ url →
        p.2.checksum ≠ current ∧ p.2.checksum ≠ meta.checksum ∧
        ∀ c, disk p.2.filename = DiskStatus.found c → c ≠ p.2.checksum →
          c ≠ current ∧ c ≠ meta.checksum) :
    lookupKey url (cleanup_inconsistencies disk dirFiles md cs).metadata =
      some { meta with checksum := current } ∧
    lookupKey current (cleanup_inconsistencies disk dirFiles md cs).checksums =
      some url ∧
    meta.filename ∈
      (cleanup_inconsistencies disk dirFiles md cs).checksum_mismatches ∧
    lookupKey meta.checksum
      (cleanup_inconsistencies disk dirFiles md cs).checksums =
      lookupKey meta.checksum cs := by
  obtain ⟨l1, l2, hsplit⟩ := List.append_of_mem hmem
  subst hsplit
  rw [List.map_append, List.map_cons] at hnd
  have hnd2 := List.nodup_append.mp hnd
  have hl2 : ∀ p ∈ l2, p.1 ≠ url := by
    intro p hp hpe
    have hmm : url ∈ l2.map Prod.fst := by
      rw [← hpe]; exact List.mem_map_of_mem Prod.fst hp
    exact (List.nodup_cons.mp hnd2.2.1).1 hmm
  have hl1 : ∀ p ∈ l1, p.1 ≠ url := by
    intro p hp hpe
    have hmm : url ∈ l1.map Prod.fst := by
      rw [← hpe]; exact List.mem_map_of_mem Prod.fst hp
    exact hnd2.2.2 hmm (List.mem_cons_self _ _)
  have h2cur : ∀ p ∈ l2, p.2.checksum ≠ current ∧
      ∀ c, disk p.2.filename = DiskStatus.found c → c ≠ p.2.checksum →
        c ≠ current := by
    intro p hp
    have h := hother p (List.mem_append_right l1 (List.mem_cons_of_mem _ hp))
      (hl2 p hp)
    exact ⟨h.1, fun c hc1 hc2 => (h.2.2 c hc1 hc2).1⟩
  have h2old : ∀ p ∈ l2, p.2.checksum ≠ meta.checksum ∧
      ∀ c, disk p.2.filename = DiskStatus.found c → c ≠ p.2.checksum →
        c ≠ meta.checksum := by
    intro p hp
    have h := hother p (List.mem_append_right l1 (List.mem_cons_of_mem _ hp))
      (hl2 p hp)
    exact ⟨h.2.1, fun c hc1 hc2 => (h.2.2 c hc1 hc2).2⟩
  have h1old : ∀ p ∈ l1, p.2.checksum ≠ meta.checksum ∧
      ∀ c, disk p.2.filename = DiskStatus.found c → c ≠ p.2.checksum →
        c ≠ meta.checksum := by
    intro p hp
    have h := hother p (List.mem_append_left _ hp) (hl1 p hp)
    exact ⟨h.2.1, fun c hc1 hc2 => (h.2.2 c hc1 hc2).2⟩
  have main : ∀ st1 : CleanupState,
      lookupKey url (List.foldl (cleanup_step disk)
        (cleanup_step disk st1 (url, meta)) l2).metadata =
        some { meta with checksum := current } ∧
      lookupKey current (List.foldl (cleanup_step disk)
        (cleanup_step disk st1 (url, meta)) l2).checksums = some url ∧
      meta.filename ∈ (List.foldl (cleanup_step disk)
        (cleanup_step disk st1 (url, meta)) l2).checksum_mismatches ∧
      lookupKey meta.checksum (List.foldl (cleanup_step disk)
        (cleanup_step disk st1 (url, meta)) l2).checksums =
        lookupKey meta.checksum st1.checksums := by
    intro st1
    have hstep : cleanup_step disk st1 (url, meta) =
        { st1 with
          metadata := updateKey url { meta with checksum := current } st1.metadata,
          checksums := updateKey current url st1.checksums,
          checksum_mismatches := st1.checksum_mismatches ++ [meta.filename] } := by
      simp only [cleanup_step, hfound]
      rw [if_pos hne]
    rw [hstep]
    refine ⟨?_, ?_, ?_, ?_⟩
    · rw [cleanup_foldl_metadata_lookup disk url l2 _ hl2]
      exact lookupKey_updateKey_self url _ st1.metadata
    · rw [cleanup_foldl_checksums_eq disk current l2 _ h2cur]
      show lookupKey current (updateKey current url st1.checksums) = some url
      exact lookupKey_updateKey_self current url st1.checksums
    · refine cleanup_foldl_mismatch_mono disk meta.filename l2 _ ?_
      show meta.filename ∈ st1.checksum_mismatches ++ [meta.filename]
      exact List.mem_append_right _ (List.mem_singleton.mpr rfl)
    · rw [cleanup_foldl_checksums_eq disk meta.checksum l2 _ h2old]
      show lookupKey meta.checksum (updateKey current url st1.checksums) =
        lookupKey meta.checksum st1.checksums
      exact lookupKey_updateKey_ne meta.checksum current url st1.checksums hne
  simp only [cleanup_inconsistencies_metadata, cleanup_inconsistencies_checksums,
    cleanup_inconsistencies_mismatches, List.foldl_append, List.foldl_cons]
  have hmain := main (List.foldl (cleanup_step disk)
    { metadata := l1 ++ (url, meta) :: l2, checksums := cs, missing_files := [],
      checksum_mismatches := [], orphaned_files := [] } l1)
  refine ⟨hmain.1, hmain.2.1, hmain.2.2.1, ?_⟩
  rw [hmain.2.2.2, cleanup_foldl_checksums_eq disk meta.checksum l1 _ h1old]

/-- Witness for C5's amended theorem at a one-record store whose file now
hashes to c2. -/
theorem cleanup_mismatch_repair_witness :
    ((([("u1", { filename := "f1", download_date := "d", checksum := "c1",
                 size_bytes := 1 })] : MetaMap).map Prod.fst).Nodup) ∧
    (("u1", ({ filename := "f1", download_date := "d", checksum := "c1",
               size_bytes := 1 } : DownloadRecord)) ∈
      ([("u1", { filename := "f1", download_date := "d", checksum := "c1",
                 size_bytes := 1 })] : MetaMap)) ∧
    ((fun f => if f = "f1" then DiskStatus.found "c2" else DiskStatus.missing)
      "f1" = DiskStatus.found "c2") ∧
    ("c2" ≠ "c1") ∧
    (∀ p ∈ ([("u1", { filename := "f1", download_date := "d", checksum := "c1",
                      size_bytes := 1 })] : MetaMap), p.1 ≠ "u1" →
       p.2.checksum ≠ "c2" ∧ p.2.checksum ≠ "c1" ∧
       ∀ c, (fun f => if f = "f1" then DiskStatus.found "c2"
                      else DiskStatus.missing) p.2.filename =
           DiskStatus.found c → c ≠ p.2.checksum → c ≠ "c2" ∧ c ≠ "c1") ∧
    (lookupKey "u1" (cleanup_inconsistencies
        (fun f => if f = "f1" then DiskStatus.found "c2" else DiskStatus.missing)
        [] [("u1", { filename := "f1", download_date := "d", checksum := "c1",
                     size_bytes := 1 })] [("c1", "u1")]).metadata =
      some { filename := "f1", download_date := "d", checksum := "c2",
             size_bytes := 1 } ∧
     lookupKey "c2" (cleanup_inconsistencies
        (fun f => if f = "f1" then DiskStatus.found "c2" else DiskStatus.missing)
        [] [("u1", { filename := "f1", download_date := "d", checksum := "c1",
                     size_bytes := 1 })] [("c1", "u1")]).checksums = some "u1" ∧
     "f1" ∈ (cleanup_inconsistencies
        (fun f => if f = "f1" then DiskStatus.found "c2" else DiskStatus.missing)
        [] [("u1", { filename := "f1", download_date := "d", checksum := "c1",
                     size_bytes := 1 })] [("c1", "u1")]).checksum_mismatches ∧
     lookupKey "c1" (cleanup_inconsistencies
        (fun f => if f = "f1" then DiskStatus.found "c2" else DiskStatus.missing)
        [] [("u1", { filename := "f1", download_date := "d", checksum := "c1",
                     size_bytes := 1 })] [("c1", "u1")]).checksums =
       lookupKey "c1" [("c1", "u1")]) := by
  refine ⟨by decide, by decide, by decide, by decide, ?_, ?_⟩
  · intro p hp hpe
    exact absurd (congrArg Prod.fst (List.mem_singleton.mp hp)) hpe
  · exact cleanup_mismatch_repair
      (fun f => if f = "f1" then DiskStatus.found "c2" else DiskStatus.missing)
      [] [("u1", { filename := "f1", download_date := "d", checksum := "c1",
                   size_bytes := 1 })] [("c1", "u1")] "u1"
      { filename := "f1", download_date := "d", checksum := "c1", size_bytes := 1 }
      "c2" (by decide) (by decide) (by decide) (by decide)
      (fun p hp hpe =>
        absurd (congrArg Prod.fst (List.mem_singleton.mp hp)) hpe)

/-- C1: the checksum-mismatch repair of cleanup_inconsistencies breaks the
store invariant on a reachable state.  Starting from the empty store, one
successful download of u1 with checksum c1 yields a state satisfying the
invariant; if the file's content then changes so that it hashes to c2, the
repair updates the record and binds c2, but leaves the stale key c1 in
self.checksums, so some byChecksum key no longer matches any byUrl entry. -/
theorem cleanup_mismatch_breaks_invariant :
    download_file "u1" "f1" "d0" 10 (FetchOutcome.fetched "c1" false) [] [] =
      { metadata := [("u1", { filename := "f1", download_date := "d0",
                              checksum := "c1", size_bytes := 10 })],
        checksums := [("c1", "u1")], ok := true, tempDeleted := false,
        finalWritten := true } ∧
    storeInv [("u1", { filename := "f1", download_date := "d0",
                       checksum := "c1", size_bytes := 10 })] [("c1", "u1")] ∧
    ¬ storeInv
        (cleanup_inconsistencies
          (fun f => if f = "f1" then DiskStatus.found "c2" else DiskStatus.missing)
          [] [("u1", { filename := "f1", download_date := "d0",
                       checksum := "c1", size_bytes := 10 })]
          [("c1", "u1")]).metadata
        (cleanup_inconsistencies
          (fun f => if f = "f1" then DiskStatus.found "c2" else DiskStatus.missing)
          [] [("u1", { filename := "f1", download_date := "d0",
                       checksum := "c1", size_bytes := 10 })]
          [("c1", "u1")]).checksums := by
  decide

/-- C9 counterexample: a failure while streaming (network error, timeout,
disk full during the fetch) raises before tmp_path is assigned, so the except
handler of _download_file cannot delete the temporary file: it is not
discarded, contrary to the claim. -/
theorem stream_error_leaves_temp_cex :
    ¬ ((download_file "u9" "f9" "d9" 0 FetchOutcome.streamError [] []).tempDeleted
        = true) ∧
    (download_file "u9" "f9" "d9" 0 FetchOutcome.streamError [] []).ok = false := by
  decide

/-- C9 (amended): a per-file failure never aborts the batch: the failing
download leaves both store maps unchanged and returns False, and
scrape_visa_type processes every remaining link exactly as if the failing
link were absent; the temporary file is discarded when the failure strikes
after the stream completed, but a failure during streaming leaves the
temporary file behind, because tmp_path is assigned only after the streaming
with-block. -/
theorem download_failure_per_file (now : String) (pre post : List Link)
    (bad : Link) (md : MetaMap) (cs : ChecksumMap) (c : String)
    (hbad : bad.outcome = FetchOutcome.streamError ∨
            bad.outcome = FetchOutcome.fetchedThenError c) :
    (download_file bad.url bad.filename now bad.size_bytes bad.outcome
      md cs).metadata = md ∧
    (download_file bad.url bad.filename now bad.size_bytes bad.outcome
      md cs).checksums = cs ∧
    (download_file bad.url bad.filename now bad.size_bytes bad.outcome
      md cs).ok = false ∧
    (bad.outcome = FetchOutcome.streamError →
      (download_file bad.url bad.filename now bad.size_bytes bad.outcome
        md cs).tempDeleted = false) ∧
    (bad.outcome = FetchOutcome.fetchedThenError c →
      (download_file bad.url bad.filename now bad.size_bytes bad.outcome
        md cs).tempDeleted = true) ∧
    scrape_visa_type now (pre ++ bad :: post) md cs =
      scrape_visa_type now (pre ++ post) md cs := by
  have hid : ∀ st : ScrapeState, scrape_step now st bad = st := by
    intro st
    obtain h | h := hbad <;>
      (cases st with
       | mk m c0 n => simp [scrape_step, download_file, h])
  refine ⟨?_, ?_, ?_, ?_, ?_⟩
  · obtain h | h := hbad <;> rw [h] <;> rfl
  · obtain h | h := hbad <;> rw [h] <;> rfl
  · obtain h | h := hbad <;> rw [h] <;> rfl
  · intro h
    rw [h]
    rfl
  · constructor
    · intro h
      rw [h]
      rfl
    · unfold scrape_visa_type
      rw [List.foldl_append, List.foldl_cons, List.foldl_append, hid]

/-- Witness for C9's amended theorem at a concrete stream failure. -/
theorem download_failure_per_file_witness :
    ((Link.mk "u9" "f9" 0 FetchOutcome.streamError).outcome =
        FetchOutcome.streamError ∨
     (Link.mk "u9" "f9" 0 FetchOutcome.streamError).outcome =
        FetchOutcome.fetchedThenError "cx") ∧
    ((download_file (Link.mk "u9" "f9" 0 FetchOutcome.streamError).url
        (Link.mk "u9" "f9" 0 FetchOutcome.streamError).filename "d9"
        (Link.mk "u9" "f9" 0 FetchOutcome.streamError).size_bytes
        (Link.mk "u9" "f9" 0 FetchOutcome.streamError).outcome [] []).metadata
        = [] ∧
     (download_file (Link.mk "u9" "f9" 0 FetchOutcome.streamError).url
        (Link.mk "u9" "f9" 0 FetchOutcome.streamError).filename "d9"
        (Link.mk "u9" "f9" 0 FetchOutcome.streamError).size_bytes
        (Link.mk "u9" "f9" 0 FetchOutcome.streamError).outcome [] []).checksums
        = [] ∧
     (download_file (Link.mk "u9" "f9" 0 FetchOutcome.streamError).url
        (Link.mk "u9" "f9" 0 FetchOutcome.streamError).filename "d9"
        (Link.mk "u9" "f9" 0 FetchOutcome.streamError).size_bytes
        (Link.mk "u9" "f9" 0 FetchOutcome.streamError).outcome [] []).ok
        = false ∧
     ((Link.mk "u9" "f9" 0 FetchOutcome.streamError).outcome =
         FetchOutcome.streamError →
       (download_file (Link.mk "u9" "f9" 0 FetchOutcome.streamError).url
          (Link.mk "u9" "f9" 0 FetchOutcome.streamError).filename "d9"
          (Link.mk "u9" "f9" 0 FetchOutcome.streamError).size_bytes
          (Link.mk "u9" "f9" 0 FetchOutcome.streamError).outcome [] []).tempDeleted
          = false) ∧
     ((Link.mk "u9" "f9" 0 FetchOutcome.streamError).outcome =
         FetchOutcome.fetchedThenError "cx" →
       (download_file (Link.mk "u9" "f9" 0 FetchOutcome.streamError).url
          (Link.mk "u9" "f9" 0 FetchOutcome.streamError).filename "d9"
          (Link.mk "u9" "f9" 0 FetchOutcome.streamError).size_bytes
          (Link.mk "u9" "f9" 0 FetchOutcome.streamError).outcome [] []).tempDeleted
          = true) ∧
     scrape_visa_type "d9"
        ([] ++ Link.mk "u9" "f9" 0 FetchOutcome.streamError :: []) [] [] =
       scrape_visa_type "d9" ([] ++ []) [] []) :=
  ⟨Or.inl rfl,
   download_failure_per_file "d9" [] []
     (Link.mk "u9" "f9" 0 FetchOutcome.streamError) [] [] "cx" (Or.inl rfl)⟩
